import Mathlib

/-!
Verification of the piview kiosk supervisor (src/piview.py, src/url_manager.py)
against its natural-language specification.

Each Python function relevant to a claim is shallowly embedded as a Lean
definition.  External effects (DNS resolution, the HTTP fetch, process
signals, the filesystem) are supplied as explicit inputs describing their
outcomes, and the embedded function computes exactly what the Python code
would do with those outcomes: its return value, its state updates, and the
observable actions (log lines, signals, fetch attempts) it performs.
-/

namespace Piview

/-! ## Connectivity checking: `Piview.check_url_connectivity` (piview.py 535-580)

The Python function parses the URL, checks DNS, then performs an HTTP fetch.
We embed the environment's behaviour as a `UrlProbe` record: what
`urlparse(url).hostname` returns, how `socket.gethostbyname` behaves, and
what the `urllib.request.urlopen` call would produce if reached. -/

/-- Outcome of `socket.gethostbyname(hostname)` (piview.py 550-558):
it returns normally, raises `socket.gaierror`, or raises some other
exception (caught by the `except Exception` arm, which only warns). -/
inductive DnsOutcome
  | resolved
  | gaiError
  | otherError
deriving DecidableEq, Repr

/-- Outcome of `urllib.request.urlopen(req, ...)` (piview.py 570-578):
a response delivered without an HTTP error (carrying `response.status`),
an `HTTPError` (carrying `e.code`), or a `URLError`/other exception. -/
inductive HttpOutcome
  | ok (status : Nat)
  | httpError (code : Nat)
  | urlError
deriving DecidableEq, Repr

/-- The environment seen by one call of `check_url_connectivity`:
the hostname `urlparse` extracts (none for a malformed URL), the DNS
outcome, and the HTTP outcome the fetch would have if it is attempted. -/
structure UrlProbe where
  hostname : Option String
  dns : DnsOutcome
  http : HttpOutcome
deriving DecidableEq, Repr

/-- The log lines `check_url_connectivity` can emit, one constructor per
`self.log(...)` call site in piview.py 545-558. The HTTP-failure paths
(piview.py 573-578) deliberately log nothing. -/
inductive ConnLog
  | invalidUrlNoHostname
  | dnsResolutionSuccessful
  | dnsResolutionFailed
  | dnsProbeNxdomainNote
  | dnsCheckErrorWarning
deriving DecidableEq, Repr

/-- What one call of `check_url_connectivity` did: its boolean return
value, whether DNS resolution was attempted, whether the HTTP fetch was
attempted, and the log lines emitted. -/
structure ConnResult where
  result : Bool
  dnsAttempted : Bool
  httpAttempted : Bool
  logs : List ConnLog
deriving DecidableEq, Repr

/-- The HTTP-fetch portion of `check_url_connectivity` (piview.py 569-578):
a response without error is reachable iff its status is in
`[200, 301, 302, 303, 307, 308]`; an `HTTPError` is reachable iff
`e.code < 500`; a `URLError` or other exception is unreachable. -/
def httpFetchResult : HttpOutcome → Bool
  | .ok status => ([200, 301, 302, 303, 307, 308] : List Nat).contains status
  | .httpError code => decide (code < 500)
  | .urlError => false

/-- `Piview.check_url_connectivity` (piview.py 535-580).  Mirrors the
source control flow: no hostname returns False at once (piview.py 544-546);
`socket.gaierror` returns False before any fetch (piview.py 553-556); any
other DNS exception only warns and falls through to the fetch
(piview.py 557-558); otherwise the fetch outcome is classified by
`httpFetchResult`. -/
def check_url_connectivity (p : UrlProbe) : ConnResult :=
  match p.hostname with
  | none =>
      { result := false, dnsAttempted := false, httpAttempted := false,
        logs := [.invalidUrlNoHostname] }
  | some _ =>
      match p.dns with
      | .gaiError =>
          { result := false, dnsAttempted := true, httpAttempted := false,
            logs := [.dnsResolutionFailed, .dnsProbeNxdomainNote] }
      | .resolved =>
          { result := httpFetchResult p.http, dnsAttempted := true,
            httpAttempted := true, logs := [.dnsResolutionSuccessful] }
      | .otherError =>
          { result := httpFetchResult p.http, dnsAttempted := true,
            httpAttempted := true, logs := [.dnsCheckErrorWarning] }

/-! ## Restart logic: `Piview.restart_browser` (piview.py 421-442)

The code keeps a single counter `browser_restart_count` of consecutive
failed restart attempts.  When the counter has reached
`max_browser_restarts` it sleeps 60 seconds and resets the counter to 0;
it then always closes and relaunches the browser.  There is no ledger of
restart timestamps and no denial path.  We track simulated wall-clock
time (seconds, from the `time.sleep` calls in piview.py 427, 431, 442)
and the timestamps at which a restart actually relaunched the browser. -/

/-- The restart-relevant mutable state of `Piview`: simulated current time,
`browser_restart_count`, and the times at which `open_url` succeeded inside
`restart_browser` (the accepted restarts). -/
structure RestartState where
  time : Nat
  browser_restart_count : Nat
  accepted : List Nat
deriving DecidableEq, Repr

/-- Initial restart state at process start (piview.py 55). -/
def restartInit : RestartState := { time := 0, browser_restart_count := 0, accepted := [] }

/-- One call of `Piview.restart_browser` (piview.py 421-442).  `openOk` is
the outcome the embedded `open_url` call would have.  Control flow from the
source: if the counter has reached `max_browser_restarts`, sleep 60 s and
reset it (425-428); close and sleep 2 s (430-431); on a successful open
reset the counter (436-438), else increment it and sleep 5 s (440-442). -/
def restart_browser (maxRestarts : Nat) (s : RestartState) (openOk : Bool) : RestartState :=
  let t0 := if s.browser_restart_count ≥ maxRestarts then s.time + 60 else s.time
  let c0 := if s.browser_restart_count ≥ maxRestarts then 0 else s.browser_restart_count
  let t1 := t0 + 2
  if openOk then
    { time := t1, browser_restart_count := 0, accepted := s.accepted ++ [t1] }
  else
    { time := t1 + 5, browser_restart_count := c0 + 1, accepted := s.accepted }

/-- A sequence of `restart_browser` calls with the given `open_url`
outcomes, starting from `s`. -/
def runRestarts (maxRestarts : Nat) (s : RestartState) : List Bool → RestartState
  | [] => s
  | ok :: rest => runRestarts maxRestarts (restart_browser maxRestarts s ok) rest

/-- Number of accepted restarts whose timestamp lies in the trailing
60-minute window ending at `now`. -/
def acceptedInWindow (s : RestartState) (now : Nat) : Nat :=
  (s.accepted.filter (fun t => decide (now ≤ t + 3600) && decide (t ≤ now))).length

/-! ## Exit detection and the consecutive-failure counter
(piview.py 988-1005 in `Piview.run`, and 266-274 in
`Piview.health_check_thread`)

Both loops poll the browser process; on a detected exit they compute
`elapsed = time.time() - browser_launch_time` when `browser_launch_time > 0`
(else 999) and ignore the exit when `elapsed < 15`.  The main loop's local
variable `consecutive_failures` is incremented on a non-ignored exit
(piview.py 997); the health-check thread has no access to that local and
only calls `restart_browser` (piview.py 274).  Times are integers
(seconds); `elapsed` is an `Int` since it is a difference. -/

/-- Result of one exit-detection step: the value of the main loop's
`consecutive_failures` afterwards, whether a restart was triggered, and
whether the startup-phase informational message was logged. -/
structure ExitStepResult where
  consecutive_failures : Nat
  restarted : Bool
  loggedStartupPhase : Bool
deriving DecidableEq, Repr

/-- `elapsed` as computed at piview.py 992 and 269:
`time.time() - browser_launch_time` if a launch time was recorded,
else the sentinel 999. -/
def elapsedSinceLaunch (launchTime now : Int) : Int :=
  if launchTime > 0 then now - launchTime else 999

/-- The main loop's handling of a detected browser exit
(piview.py 991-999): within the 15 s startup grace window the exit is
logged and ignored; otherwise `consecutive_failures` is incremented and
`restart_browser` is called. -/
def mainLoopExitStep (launchTime now : Int) (failures : Nat) : ExitStepResult :=
  if elapsedSinceLaunch launchTime now < 15 then
    { consecutive_failures := failures, restarted := false, loggedStartupPhase := true }
  else
    { consecutive_failures := failures + 1, restarted := true, loggedStartupPhase := false }

/-- The health-check thread's handling of a detected browser exit
(piview.py 268-274): within the grace window the exit is ignored;
otherwise `restart_browser` is called.  The thread never touches the main
loop's `consecutive_failures` local, which it receives and returns
unchanged. -/
def healthThreadExitStep (launchTime now : Int) (failures : Nat) : ExitStepResult :=
  if elapsedSinceLaunch launchTime now < 15 then
    { consecutive_failures := failures, restarted := false, loggedStartupPhase := true }
  else
    { consecutive_failures := failures, restarted := true, loggedStartupPhase := false }

/-! ## Watchdog monitor (spec §4.2; absent from src/)

There is no watchdog in src/piview.py or src/url_manager.py: the claim is
decided by code the repository does not ship, so the watchdog is modelled
from the spec. -/

/-- Modelled from the spec: the watchdog state machine of spec §4.2, which
is missing from src/.  States are Idle (no process), Monitoring with a
consecutive-unresponsive streak `k` (Monitoring itself is streak 0,
Unresponsive(k) for k = 1..N-1), and Killed. -/
inductive WatchdogState
  | idle
  | monitoring (streak : Nat)
  | killed
deriving DecidableEq, Repr

/-- Modelled from the spec: events the watchdog observes — a responsiveness
probe that succeeds, a probe that fails, and a successful relaunch of the
child process. -/
inductive WatchdogEvent
  | probeOk
  | probeFail
  | relaunch
deriving DecidableEq, Repr

/-- Modelled from the spec: the freeze threshold in seconds is converted to
"N consecutive failed checks" using the check interval, rounding up
(`ceil(freeze_threshold / check_interval)` over the rationals, computed on
naturals). -/
def checksToKill (freezeThreshold checkInterval : Nat) : Nat :=
  (freezeThreshold + checkInterval - 1) / checkInterval

/-- Modelled from the spec: one watchdog transition.  A successful probe
from any state except Idle returns to Monitoring with streak 0; a failed
probe from Monitoring(k) reaches Killed exactly when the streak reaches
`n`, else Unresponsive(k+1); Killed returns to Monitoring after the next
successful relaunch, with streak 0. -/
def watchdogStep (n : Nat) : WatchdogState → WatchdogEvent → WatchdogState
  | .idle, .relaunch => .monitoring 0
  | .idle, _ => .idle
  | .monitoring _, .probeOk => .monitoring 0
  | .monitoring k, .probeFail => if k + 1 ≥ n then .killed else .monitoring (k + 1)
  | .monitoring k, .relaunch => .monitoring k
  | .killed, .relaunch => .monitoring 0
  | .killed, _ => .killed

/-- Modelled from the spec: run the watchdog from a state over a list of
events. -/
def watchdogRun (n : Nat) (s : WatchdogState) : List WatchdogEvent → WatchdogState
  | [] => s
  | e :: rest => watchdogRun n (watchdogStep n s e) rest

/-! ## Closing the browser: `Piview.close_browser` (piview.py 358-386)

The source sends `terminate()`, waits up to 3 s, on `TimeoutExpired` sends
`kill()` and waits up to 2 s; exceptions of the kill path are swallowed by
an inner `except`, any other exception of the terminate path is logged and
swallowed, and a `finally` clears `self.browser_process`.  It then always
runs three `pkill -9 -f <browser>` sweep iterations, each with its own
swallowing `except`.  A pkill sweep iteration that does not itself raise
kills every live same-named process. -/

/-- Outcome of the terminate/wait portion of `close_browser`
(piview.py 361-371): the process exits within the 3 s grace period;
it times out and the `kill()`/`wait(2)` path completes; it times out and
the kill path raises (inner `except Exception: pass`, piview.py 368-369);
or terminate/wait raises some other exception (piview.py 370-371). -/
inductive TermOutcome
  | exitsInGrace
  | timeoutThenKillOk
  | timeoutKillFails
  | otherError
deriving DecidableEq, Repr

/-- Observable actions of one `close_browser` call. -/
inductive CloseAction
  | terminate
  | waitSec (n : Nat)
  | kill
  | logWarning
  | pkillSweep
deriving DecidableEq, Repr

/-- Environment of one `close_browser` call: the terminate-path outcome and
whether each of the three pkill sweep iterations raises
(`sweepOkI = true` means iteration `I` ran without raising). -/
structure CloseEnv where
  term : TermOutcome
  sweepOk1 : Bool
  sweepOk2 : Bool
  sweepOk3 : Bool
deriving DecidableEq, Repr

/-- Process-related state of the supervisor: `self.browser_process`
(the pid of the held handle, if any) and the number of live same-named
stray processes not referenced by the handle. -/
structure SupervisorState where
  browser_process : Option Nat
  strays : Nat
deriving DecidableEq, Repr

/-- `Piview.close_browser` (piview.py 358-386) as a function from the
environment and state to `Except`: an uncaught Python exception would be
`Except.error`, so the embedding shows each `except` arm of the source
absorbing its case.  A handle whose kill path fails or whose terminate
path raised may leave the old process running as a stray; the sweep
(piview.py 376-386) kills all strays in any iteration that does not
raise. -/
def close_browser (env : CloseEnv) (s : SupervisorState) :
    Except String (SupervisorState × List CloseAction) :=
  let handlePart : SupervisorState × List CloseAction :=
    match s.browser_process with
    | none => (s, [])
    | some _ =>
      match env.term with
      | .exitsInGrace =>
          ({ browser_process := none, strays := s.strays },
           [.terminate, .waitSec 3])
      | .timeoutThenKillOk =>
          ({ browser_process := none, strays := s.strays },
           [.terminate, .waitSec 3, .kill, .waitSec 2])
      | .timeoutKillFails =>
          ({ browser_process := none, strays := s.strays + 1 },
           [.terminate, .waitSec 3, .kill])
      | .otherError =>
          ({ browser_process := none, strays := s.strays + 1 },
           [.terminate, .logWarning])
  let sweepEffective := env.sweepOk1 || env.sweepOk2 || env.sweepOk3
  let s1 := handlePart.1
  .ok ({ browser_process := s1.browser_process,
         strays := if sweepEffective then 0 else s1.strays },
       handlePart.2 ++ [.pkillSweep, .pkillSweep, .pkillSweep])

/-! ## Launch and restart as action traces: `Piview.open_url`
(piview.py 696-916) and `Piview.restart_browser` (piview.py 421-442)

We record each operation's sequence of primitive process actions: `close`
(a `close_browser` call, which terminates the held handle and sweeps away
every live same-named process) and `spawn` (the `subprocess.Popen` call at
piview.py 867).  These operations are invoked from several threads with no
lock: the main loop (piview.py 999, 1014), the refresh path (piview.py
397, 414, 418) and the health-check thread (piview.py 274) all call
restart_browser / open_url on the shared `browser_process`.  A serialized
execution is a concatenation of operation traces (`traceOf`); a concurrent
execution of two threads is an interleaving of their action lists
(`IsInterleaving`), realizable because whole seconds of sleeping separate
each close from its spawn (piview.py 431, 875, 890). -/

/-- Primitive process actions of the supervisor. -/
inductive ProcAction
  | close
  | spawn
deriving DecidableEq, Repr

/-- Environment of one `open_url` call: whether `wait_for_x_server`
succeeds (piview.py 701), whether the `xset q` verification succeeds
(piview.py 745-755), whether `find_browser` finds an executable
(piview.py 761-764), whether `subprocess.Popen` raises
(piview.py 911-916), and whether the 1 s and 8 s post-spawn liveness
checks see an exit (piview.py 876-884, 894-902). -/
structure OpenEnv where
  xReady : Bool
  xVerify : Bool
  browserFound : Bool
  popenRaises : Bool
  immediateExit : Bool
  startupExit : Bool
deriving DecidableEq, Repr

/-- The process actions of one `Piview.open_url` call: it closes first
(piview.py 698) and spawns only if every pre-spawn step succeeded and
`Popen` did not raise; the connectivity checks (piview.py 770-810) never
prevent the spawn. -/
def open_url_actions (env : OpenEnv) : List ProcAction :=
  .close ::
    (if env.xReady && env.xVerify && env.browserFound && !env.popenRaises
     then [.spawn] else [])

/-- The boolean result of `Piview.open_url`: true iff the spawn happened
and neither post-spawn liveness check saw an exit. -/
def open_url_result (env : OpenEnv) : Bool :=
  env.xReady && env.xVerify && env.browserFound && !env.popenRaises &&
    !env.immediateExit && !env.startupExit

/-- Supervisor operations that touch the process handle: `open_url`,
`restart_browser` (which closes at piview.py 430 and then calls
`open_url`), and a bare `close_browser`. -/
inductive SupervisorOp
  | openUrl (env : OpenEnv)
  | restart (env : OpenEnv)
  | closeOp
deriving DecidableEq, Repr

/-- The primitive process actions of one supervisor operation. -/
def opActions : SupervisorOp → List ProcAction
  | .openUrl env => open_url_actions env
  | .restart env => .close :: open_url_actions env
  | .closeOp => [.close]

/-- The primitive action trace of a serialized sequence of supervisor
operations: the executions in which no two operations overlap.  The
program does not enforce this serialization (it has no lock), so these are
only a subset of its executions. -/
def traceOf (ops : List SupervisorOp) : List ProcAction :=
  (ops.map opActions).flatten

/-- The interleavings of two threads' action lists: every concurrent
execution of two unsynchronized threads performs some interleaving of
their individual action sequences. -/
inductive IsInterleaving : List ProcAction → List ProcAction → List ProcAction → Prop
  | nil : IsInterleaving [] [] []
  | left : IsInterleaving as bs cs → IsInterleaving (a :: as) bs (a :: cs)
  | right : IsInterleaving as bs cs → IsInterleaving as (b :: bs) (b :: cs)

/-- Number of live browser processes after executing the actions, starting
from `live` of them: `close` kills them all, `spawn` adds one. -/
def liveAfter (live : Nat) : List ProcAction → Nat
  | [] => live
  | .close :: rest => liveAfter 0 rest
  | .spawn :: rest => liveAfter (live + 1) rest

/-- The largest number of simultaneously live browser processes at any
point while executing the actions, starting from `live` of them. -/
def maxLive (live : Nat) : List ProcAction → Nat
  | [] => live
  | .close :: rest => max live (maxLive 0 rest)
  | .spawn :: rest => max live (maxLive (live + 1) rest)

/-! ## Configuration loading: `Piview.load_config` (piview.py 323-344)
and `DEFAULT_CONFIG` (piview.py 25-46)

JSON values occurring in the configuration are strings, integers, booleans
and lists of strings; a parsed JSON object is an association list. -/

/-- A configuration value, covering the value shapes of `DEFAULT_CONFIG`. -/
inductive ConfigValue
  | str (s : String)
  | num (n : Nat)
  | boolean (b : Bool)
  | strList (l : List String)
deriving DecidableEq, Repr

/-- `DEFAULT_CONFIG` (piview.py 25-46). -/
def DEFAULT_CONFIG : List (String × ConfigValue) :=
  [("url", .str "http://example.com"),
   ("refresh_interval", .num 60),
   ("browser", .str "chromium-browser"),
   ("health_check_interval", .num 10),
   ("max_browser_restarts", .num 10),
   ("ignore_ssl_errors", .boolean true),
   ("connection_retry_delay", .num 5),
   ("max_connection_retries", .num 3),
   ("kiosk_flags", .strList
     ["--kiosk", "--noerrdialogs", "--disable-infobars",
      "--disable-session-crashed-bubble", "--disable-restore-session-state",
      "--disable-sync", "--disable-dev-shm-usage", "--no-sandbox",
      "--disable-gpu", "--user-data-dir=/tmp/chromium-ssl-bypass"])]

/-- Python `dict.update` on association lists, as in
`merged = DEFAULT_CONFIG.copy(); merged.update(config)` (piview.py 339-340):
base keys keep their position but take the overlay's value when present;
overlay-only keys are appended. -/
def dictUpdate (base overlay : List (String × ConfigValue)) :
    List (String × ConfigValue) :=
  base.map (fun kv => (kv.1, (overlay.lookup kv.1).getD kv.2)) ++
    overlay.filter (fun kv => (base.lookup kv.1).isNone)

/-- What opening and parsing the chosen config file yields
(piview.py 336-337): an `IOError`, a `json.JSONDecodeError`, an
undecodable file — bytes that are not valid text, making the text-mode
read inside `json.load` raise `UnicodeDecodeError` — or a parsed JSON
object. -/
inductive FileContent
  | ioError
  | badJson
  | undecodable
  | jsonDict (d : List (String × ConfigValue))
deriving DecidableEq, Repr

/-- The `try`/`except` body of `load_config` (piview.py 335-344).  The
`except` arm catches exactly `(json.JSONDecodeError, IOError)`: those two
kinds yield a copy of the defaults and a parsed object is merged over the
defaults, but a `UnicodeDecodeError` from an undecodable file is a
`ValueError`, matched by neither caught class, and propagates out of
`load_config`. -/
def readAndMerge : FileContent → Except String (List (String × ConfigValue))
  | .ioError => .ok DEFAULT_CONFIG
  | .badJson => .ok DEFAULT_CONFIG
  | .undecodable => .error "UnicodeDecodeError"
  | .jsonDict d => .ok (dictUpdate DEFAULT_CONFIG d)

/-- `Piview.load_config` (piview.py 323-344).  `userExists`/`sysExists`
say whether `USER_CONFIG_FILE`/`CONFIG_FILE` exist, `userContent` and
`sysContent` what reading each would yield, and `mkdirOk` whether the
`config_file.parent.mkdir` call at piview.py 331 (and the one inside the
`save_config` it calls, piview.py 351) would succeed — those calls sit
outside any `try`, so their failure would propagate as `Except.error`.
Line 326 picks the user file iff it exists, so the `mkdir`/`save_config`
branch (piview.py 330-332) requires the chosen file to be the user file
and simultaneously not exist. -/
def load_config (userExists sysExists : Bool)
    (userContent sysContent : FileContent) (mkdirOk : Bool) :
    Except String (List (String × ConfigValue)) :=
  let configIsUser := userExists
  let fileExists := if configIsUser then userExists else sysExists
  if fileExists then
    readAndMerge (if configIsUser then userContent else sysContent)
  else
    if configIsUser then
      if mkdirOk then .ok DEFAULT_CONFIG else .error "mkdir raised"
    else
      .ok DEFAULT_CONFIG

end Piview

namespace UrlManager

/-! ## The URL manager's GET handler: `URLManagerHandler.do_GET`
(url_manager.py 17-32) -/

/-- Body of a `do_GET` response: the index HTML page, the JSON-encoded
configuration, or nothing (the 404 arm writes no body). -/
inductive RespBody
  | indexHtml
  | configJson
  | empty
deriving DecidableEq, Repr

/-- An HTTP response of the URL manager. -/
structure GetResponse where
  status : Nat
  contentType : Option String
  body : RespBody
deriving DecidableEq, Repr

/-- `URLManagerHandler.do_GET` (url_manager.py 17-32): `/` and
`/index.html` get 200 with the HTML interface, `/api/config` gets 200 with
the JSON configuration, every other path gets 404 with no body. -/
def do_GET (path : String) : GetResponse :=
  if path = "/" ∨ path = "/index.html" then
    { status := 200, contentType := some "text/html", body := .indexHtml }
  else if path = "/api/config" then
    { status := 200, contentType := some "application/json", body := .configJson }
  else
    { status := 404, contentType := none, body := .empty }

end UrlManager

/-! ## Theorems settling the claims -/

open Piview UrlManager

/-- Claim C10: for every URL whose parsed form has no hostname (a malformed
URL), check_url_connectivity returns False without attempting DNS
resolution or an HTTP fetch. -/
theorem claim_C10_no_hostname_short_circuit (p : UrlProbe)
    (h : p.hostname = none) :
    (check_url_connectivity p).result = false ∧
    (check_url_connectivity p).dnsAttempted = false ∧
    (check_url_connectivity p).httpAttempted = false := by
  cases p
  simp_all [check_url_connectivity]

/-- Witness for claim C10 at a concrete malformed-URL probe. -/
theorem claim_C10_witness :
    (({ hostname := none, dns := .resolved, http := .ok 200 } : UrlProbe).hostname
        = none) ∧
    ((check_url_connectivity
        { hostname := none, dns := .resolved, http := .ok 200 }).result = false ∧
      (check_url_connectivity
        { hostname := none, dns := .resolved, http := .ok 200 }).dnsAttempted = false ∧
      (check_url_connectivity
        { hostname := none, dns := .resolved, http := .ok 200 }).httpAttempted = false) :=
  ⟨rfl, claim_C10_no_hostname_short_circuit
    { hostname := none, dns := .resolved, http := .ok 200 } rfl⟩

/-- Claim C4: for every URL whose hostname fails DNS resolution
(socket.gaierror), check_url_connectivity reports the URL unreachable
without attempting an HTTP fetch, logs the DNS failure, and no run whose
DNS resolved (in particular no run failing only at the HTTP stage) ever
emits that DNS-failure log line, so the DNS failure is reported distinctly
from an HTTP failure. -/
theorem claim_C4_dns_failure_distinct (p : UrlProbe) (h0 : p.hostname.isSome)
    (h1 : p.dns = .gaiError) :
    (check_url_connectivity p).result = false ∧
    (check_url_connectivity p).httpAttempted = false ∧
    ConnLog.dnsResolutionFailed ∈ (check_url_connectivity p).logs ∧
    (∀ q : UrlProbe, q.dns = .resolved →
      ConnLog.dnsResolutionFailed ∉ (check_url_connectivity q).logs) := by
  refine ⟨?_, ?_, ?_, ?_⟩
  · cases p with
    | mk hn dns http => cases hn <;> simp_all [check_url_connectivity]
  · cases p with
    | mk hn dns http => cases hn <;> simp_all [check_url_connectivity]
  · cases p with
    | mk hn dns http => cases hn <;> simp_all [check_url_connectivity]
  · intro q hq
    cases q with
    | mk hn dns http => cases hn <;> simp_all [check_url_connectivity]

/-- Witness for claim C4 at a concrete non-resolving probe. -/
theorem claim_C4_witness :
    (({ hostname := some "kiosk.local", dns := .gaiError, http := .ok 200 }
        : UrlProbe).hostname.isSome) ∧
    ((check_url_connectivity
        { hostname := some "kiosk.local", dns := .gaiError, http := .ok 200 }).result
          = false ∧
      (check_url_connectivity
        { hostname := some "kiosk.local", dns := .gaiError, http := .ok 200 }).httpAttempted
          = false ∧
      ConnLog.dnsResolutionFailed ∈ (check_url_connectivity
        { hostname := some "kiosk.local", dns := .gaiError, http := .ok 200 }).logs ∧
      (∀ q : UrlProbe, q.dns = .resolved →
        ConnLog.dnsResolutionFailed ∉ (check_url_connectivity q).logs)) :=
  ⟨rfl, claim_C4_dns_failure_distinct
    { hostname := some "kiosk.local", dns := .gaiError, http := .ok 200 } rfl rfl⟩

/-- Claim C5 as stated is false: a response delivered without an HTTP error
whose status is 204 (a 2xx status) is classified unreachable by
check_url_connectivity, which accepts only the statuses
200, 301, 302, 303, 307 and 308. -/
theorem claim_C5_counterexample :
    200 ≤ 204 ∧ 204 < 400 ∧
    (check_url_connectivity
      { hostname := some "example.com", dns := .resolved, http := .ok 204 }).result
        = false := by
  refine ⟨by norm_num, by norm_num, rfl⟩

/-- Claim C5 amended: a response delivered without an HTTP error is
classified reachable if and only if its status code is one of 200, 301,
302, 303, 307, 308 (not every 2xx/3xx status); a response raising an HTTP
error is classified reachable if and only if its error code is under 500;
a URLError or other fetch exception is classified unreachable. -/
theorem claim_C5_amended (host : String) (status code : Nat) :
    ((check_url_connectivity
        { hostname := some host, dns := .resolved, http := .ok status }).result = true ↔
      status = 200 ∨ status = 301 ∨ status = 302 ∨ status = 303 ∨
        status = 307 ∨ status = 308) ∧
    ((check_url_connectivity
        { hostname := some host, dns := .resolved, http := .httpError code }).result = true ↔
      code < 500) ∧
    (check_url_connectivity
        { hostname := some host, dns := .resolved, http := .urlError }).result = false := by
  simp [check_url_connectivity, httpFetchResult, List.contains, List.elem_eq_mem]

/-- Claim C1 as stated is false: restart_browser keeps no ledger of restart
timestamps and never denies a restart.  With the cap set to 1, two restart
requests whose relaunches both succeed yield two accepted restarts at
timestamps 2 s and 4 s, both inside one trailing 60-minute window, which
exceeds the cap. -/
theorem claim_C1_counterexample :
    (runRestarts 1 restartInit [true, true]).accepted = [2, 4] ∧
    acceptedInWindow (runRestarts 1 restartInit [true, true])
      (runRestarts 1 restartInit [true, true]).time = 2 ∧
    1 < 2 := by
  refine ⟨rfl, rfl, by norm_num⟩

/-- Claim C1 amended: the restart-limiting logic keeps no ledger of restart
timestamps and never denies a restart; browser_restart_count only counts
consecutive failed relaunch attempts (reset on success, and reset with a
60-second sleep once it reaches max_browser_restarts before proceeding).
Hence for every configured cap, a sequence of n restart requests whose
relaunches succeed produces exactly n accepted restarts — the number of
accepted restarts is not bounded by the cap. -/
theorem claim_C1_amended (maxRestarts n : Nat) :
    (runRestarts maxRestarts restartInit (List.replicate n true)).accepted.length
      = n := by
  suffices h : ∀ (n : Nat) (s : RestartState),
      (runRestarts maxRestarts s (List.replicate n true)).accepted.length
        = s.accepted.length + n by
    simpa [restartInit] using h n restartInit
  intro n
  induction n with
  | zero => intro s; simp [runRestarts]
  | succ m ih =>
    intro s
    rw [List.replicate_succ, runRestarts, ih]
    simp [restart_browser]
    omega

/-- Claim C2 as stated is false: a browser exit detected by the
health-check thread 99 seconds after launch — far past the startup grace
window — triggers a restart but leaves the consecutive-failure counter
unchanged, because that counter is a local of the main loop which the
health-check thread never touches. -/
theorem claim_C2_counterexample :
    elapsedSinceLaunch 1 100 = 99 ∧ (15 : Int) ≤ 99 ∧
    (healthThreadExitStep 1 100 5).restarted = true ∧
    (healthThreadExitStep 1 100 5).consecutive_failures = 5 := by
  refine ⟨by decide, by decide, by decide, by decide⟩

/-- Claim C2 amended: for a browser exit detected with a recorded launch
time, an exit within the 15-second startup grace window never increments
the consecutive-failure counter in either detection path; an exit after
the grace window detected by the main loop always increments it, while an
exit after the grace window detected by the health-check thread triggers a
restart but never increments it. -/
theorem claim_C2_amended (launchTime now : Int) (failures : Nat)
    (hpos : 0 < launchTime) :
    (now - launchTime < 15 →
      (mainLoopExitStep launchTime now failures).consecutive_failures = failures ∧
      (healthThreadExitStep launchTime now failures).consecutive_failures = failures ∧
      (mainLoopExitStep launchTime now failures).restarted = false) ∧
    (15 ≤ now - launchTime →
      (mainLoopExitStep launchTime now failures).consecutive_failures = failures + 1 ∧
      (healthThreadExitStep launchTime now failures).consecutive_failures = failures ∧
      (healthThreadExitStep launchTime now failures).restarted = true) := by
  have he : elapsedSinceLaunch launchTime now = now - launchTime := by
    simp [elapsedSinceLaunch, hpos]
  constructor
  · intro hlt
    simp [mainLoopExitStep, healthThreadExitStep, he, hlt]
  · intro hge
    simp [mainLoopExitStep, healthThreadExitStep, he, Int.not_lt.mpr hge]

/-- Witness for the amended claim C2 at launch time 1, now 5, counter 3. -/
theorem claim_C2_amended_witness :
    (0 : Int) < 1 ∧
    (((5 : Int) - 1 < 15 →
        (mainLoopExitStep 1 5 3).consecutive_failures = 3 ∧
        (healthThreadExitStep 1 5 3).consecutive_failures = 3 ∧
        (mainLoopExitStep 1 5 3).restarted = false) ∧
      ((15 : Int) ≤ 5 - 1 →
        (mainLoopExitStep 1 5 3).consecutive_failures = 3 + 1 ∧
        (healthThreadExitStep 1 5 3).consecutive_failures = 3 ∧
        (healthThreadExitStep 1 5 3).restarted = true)) :=
  ⟨by decide, claim_C2_amended 1 5 3 (by decide)⟩

/-- Claim C8 as stated is false: the URL manager's GET handler has no
health endpoint — a GET of /health falls into the catch-all arm and is
answered 404 with no body, not a JSON health object. -/
theorem claim_C8_counterexample :
    (UrlManager.do_GET "/health").status = 404 ∧
    (UrlManager.do_GET "/health").body = UrlManager.RespBody.empty := by
  refine ⟨rfl, rfl⟩

/-- Claim C8 amended: do_GET answers the slash path and /index.html with a
200 HTML page, /api/config with the 200 JSON configuration, and every
other path — including /health — with a 404 response carrying no body;
there is no health status endpoint. -/
theorem claim_C8_amended (path : String) (h1 : path ≠ "/")
    (h2 : path ≠ "/index.html") (h3 : path ≠ "/api/config") :
    UrlManager.do_GET path =
      { status := 404, contentType := none, body := .empty } ∧
    UrlManager.do_GET "/" =
      { status := 200, contentType := some "text/html", body := .indexHtml } ∧
    UrlManager.do_GET "/index.html" =
      { status := 200, contentType := some "text/html", body := .indexHtml } ∧
    UrlManager.do_GET "/api/config" =
      { status := 200, contentType := some "application/json", body := .configJson } := by
  refine ⟨?_, rfl, rfl, rfl⟩
  simp [UrlManager.do_GET, h1, h2, h3]

/-- Witness for the amended claim C8 at the path /health. -/
theorem claim_C8_amended_witness :
    ("/health" ≠ "/" ∧ "/health" ≠ "/index.html" ∧ "/health" ≠ "/api/config") ∧
    (UrlManager.do_GET "/health" =
        { status := 404, contentType := none, body := .empty } ∧
      UrlManager.do_GET "/" =
        { status := 200, contentType := some "text/html", body := .indexHtml } ∧
      UrlManager.do_GET "/index.html" =
        { status := 200, contentType := some "text/html", body := .indexHtml } ∧
      UrlManager.do_GET "/api/config" =
        { status := 200, contentType := some "application/json", body := .configJson }) :=
  ⟨⟨by decide, by decide, by decide⟩,
    claim_C8_amended "/health" (by decide) (by decide) (by decide)⟩

/-- Claim C6: close_browser never raises (every exception of the
terminate, kill and sweep paths is absorbed by an except arm), always
clears the handle, always performs the three-iteration best-effort pkill
sweep, and — when a handle was present — first sends the graceful
terminate, force-kills exactly on timeout of the 3-second grace period,
and never waits longer than that grace period.  A second call returns the
state of the first call unchanged, so calling it twice has the same effect
as calling it once. -/
theorem claim_C6_close_browser_idempotent (env : CloseEnv) (s : SupervisorState) :
    ∃ s1 acts,
      close_browser env s = .ok (s1, acts) ∧
      s1.browser_process = none ∧
      close_browser env s1 =
        .ok (s1, [.pkillSweep, .pkillSweep, .pkillSweep]) ∧
      acts.count CloseAction.pkillSweep = 3 ∧
      (s.browser_process.isSome →
        acts.head? = some .terminate ∧
        (CloseAction.kill ∈ acts ↔
          env.term = .timeoutThenKillOk ∨ env.term = .timeoutKillFails) ∧
        (∀ n, CloseAction.waitSec n ∈ acts → n ≤ 3)) := by
  obtain ⟨term, sw1, sw2, sw3⟩ := env
  obtain ⟨bp, strays⟩ := s
  by_cases hsw : (sw1 || sw2 || sw3) = true
  · cases bp with
    | none =>
      refine ⟨⟨none, 0⟩, [.pkillSweep, .pkillSweep, .pkillSweep],
        ?_, rfl, ?_, by decide, by simp⟩
      · cases term <;> simp [close_browser, hsw]
      · cases term <;> simp [close_browser, hsw]
    | some pid =>
      cases term with
      | exitsInGrace =>
        refine ⟨⟨none, 0⟩,
          [.terminate, .waitSec 3, .pkillSweep, .pkillSweep, .pkillSweep],
          ?_, rfl, ?_, by decide, ?_⟩
        · simp [close_browser, hsw]
        · simp [close_browser, hsw]
        · refine fun _ => ⟨rfl, by simp, ?_⟩
          intro n hn
          simp at hn
          omega
      | timeoutThenKillOk =>
        refine ⟨⟨none, 0⟩,
          [.terminate, .waitSec 3, .kill, .waitSec 2,
            .pkillSweep, .pkillSweep, .pkillSweep],
          ?_, rfl, ?_, by decide, ?_⟩
        · simp [close_browser, hsw]
        · simp [close_browser, hsw]
        · refine fun _ => ⟨rfl, by simp, ?_⟩
          intro n hn
          simp at hn
          omega
      | timeoutKillFails =>
        refine ⟨⟨none, 0⟩,
          [.terminate, .waitSec 3, .kill, .pkillSweep, .pkillSweep, .pkillSweep],
          ?_, rfl, ?_, by decide, ?_⟩
        · simp [close_browser, hsw]
        · simp [close_browser, hsw]
        · refine fun _ => ⟨rfl, by simp, ?_⟩
          intro n hn
          simp at hn
          omega
      | otherError =>
        refine ⟨⟨none, 0⟩,
          [.terminate, .logWarning, .pkillSweep, .pkillSweep, .pkillSweep],
          ?_, rfl, ?_, by decide, ?_⟩
        · simp [close_browser, hsw]
        · simp [close_browser, hsw]
        · refine fun _ => ⟨rfl, by simp, ?_⟩
          intro n hn
          simp at hn
  · cases bp with
    | none =>
      refine ⟨⟨none, strays⟩, [.pkillSweep, .pkillSweep, .pkillSweep],
        ?_, rfl, ?_, by decide, by simp⟩
      · cases term <;> simp [close_browser, hsw]
      · cases term <;> simp [close_browser, hsw]
    | some pid =>
      cases term with
      | exitsInGrace =>
        refine ⟨⟨none, strays⟩,
          [.terminate, .waitSec 3, .pkillSweep, .pkillSweep, .pkillSweep],
          ?_, rfl, ?_, by decide, ?_⟩
        · simp [close_browser, hsw]
        · simp [close_browser, hsw]
        · refine fun _ => ⟨rfl, by simp, ?_⟩
          intro n hn
          simp at hn
          omega
      | timeoutThenKillOk =>
        refine ⟨⟨none, strays⟩,
          [.terminate, .waitSec 3, .kill, .waitSec 2,
            .pkillSweep, .pkillSweep, .pkillSweep],
          ?_, rfl, ?_, by decide, ?_⟩
        · simp [close_browser, hsw]
        · simp [close_browser, hsw]
        · refine fun _ => ⟨rfl, by simp, ?_⟩
          intro n hn
          simp at hn
          omega
      | timeoutKillFails =>
        refine ⟨⟨none, strays + 1⟩,
          [.terminate, .waitSec 3, .kill, .pkillSweep, .pkillSweep, .pkillSweep],
          ?_, rfl, ?_, by decide, ?_⟩
        · simp [close_browser, hsw]
        · simp [close_browser, hsw]
        · refine fun _ => ⟨rfl, by simp, ?_⟩
          intro n hn
          simp at hn
          omega
      | otherError =>
        refine ⟨⟨none, strays + 1⟩,
          [.terminate, .logWarning, .pkillSweep, .pkillSweep, .pkillSweep],
          ?_, rfl, ?_, by decide, ?_⟩
        · simp [close_browser, hsw]
        · simp [close_browser, hsw]
        · refine fun _ => ⟨rfl, by simp, ?_⟩
          intro n hn
          simp at hn

/-- Witness for claim C6 at a concrete environment (terminate times out,
the kill succeeds, the first sweep iteration works) and a state holding a
live handle with two stray processes. -/
theorem claim_C6_witness :
    ∃ s1 acts,
      close_browser ⟨.timeoutThenKillOk, true, false, false⟩ ⟨some 7, 2⟩ =
        .ok (s1, acts) ∧
      s1.browser_process = none ∧
      close_browser ⟨.timeoutThenKillOk, true, false, false⟩ s1 =
        .ok (s1, [.pkillSweep, .pkillSweep, .pkillSweep]) ∧
      acts.count CloseAction.pkillSweep = 3 ∧
      ((⟨some 7, 2⟩ : SupervisorState).browser_process.isSome →
        acts.head? = some .terminate ∧
        (CloseAction.kill ∈ acts ↔
          (⟨.timeoutThenKillOk, true, false, false⟩ : CloseEnv).term =
            .timeoutThenKillOk ∨
          (⟨.timeoutThenKillOk, true, false, false⟩ : CloseEnv).term =
            .timeoutKillFails) ∧
        (∀ n, CloseAction.waitSec n ∈ acts → n ≤ 3)) :=
  claim_C6_close_browser_idempotent ⟨.timeoutThenKillOk, true, false, false⟩
    ⟨some 7, 2⟩

/-- Every number of live processes is a lower bound for maxLive over any
action list starting from it. -/
theorem le_maxLive (live : Nat) (l : List ProcAction) : live ≤ maxLive live l := by
  induction l generalizing live with
  | nil => simp [maxLive]
  | cons a rest ih => cases a <;> simp [maxLive]

/-- maxLive distributes over concatenation through the intermediate live
count. -/
theorem maxLive_append (a b : List ProcAction) (live : Nat) :
    maxLive live (a ++ b) = max (maxLive live a) (maxLive (liveAfter live a) b) := by
  induction a generalizing live with
  | nil =>
    simp [maxLive, liveAfter, Nat.max_eq_right (le_maxLive live b)]
  | cons x rest ih =>
    cases x <;> simp [maxLive, liveAfter, ih, Nat.max_assoc]

/-- Each supervisor operation's action list keeps the live count at or
below 1 at every intermediate point, provided at most one process was live
on entry, and leaves at most one process live. -/
theorem maxLive_op (live : Nat) (op : SupervisorOp) :
    maxLive live (opActions op) ≤ max live 1 ∧ liveAfter live (opActions op) ≤ 1 := by
  cases op with
  | openUrl env =>
    by_cases h : (env.xReady && env.xVerify && env.browserFound && !env.popenRaises) = true <;>
      simp [opActions, open_url_actions, h, maxLive, liveAfter]
  | restart env =>
    by_cases h : (env.xReady && env.xVerify && env.browserFound && !env.popenRaises) = true <;>
      simp [opActions, open_url_actions, h, maxLive, liveAfter]
  | closeOp => simp [opActions, maxLive, liveAfter]

/-- The serialized executions keep the live-process count at or below one:
shared helper for the amended claim C7. -/
theorem maxLive_traceOf_le_one (ops : List SupervisorOp) :
    maxLive 0 (traceOf ops) ≤ 1 := by
  have key : ∀ (l : List SupervisorOp) (live : Nat), live ≤ 1 →
      maxLive live (traceOf l) ≤ 1 := by
    intro l
    induction l with
    | nil =>
      intro live h
      simpa [traceOf, maxLive] using h
    | cons op rest ih =>
      intro live h
      have hop := maxLive_op live op
      have hcons : traceOf (op :: rest) = opActions op ++ traceOf rest := by
        simp [traceOf]
      rw [hcons, maxLive_append]
      have h1 : maxLive live (opActions op) ≤ 1 :=
        le_trans hop.1 (Nat.max_le.mpr ⟨h, le_refl 1⟩)
      exact Nat.max_le.mpr ⟨h1, ih _ hop.2⟩
  exact key ops 0 (by omega)

/-- Two concurrent launch paths can interleave as close, close, spawn,
spawn: shared helper for claim C7. -/
theorem interleaving_close_close_spawn_spawn :
    IsInterleaving
      (open_url_actions ⟨true, true, true, false, false, false⟩)
      (open_url_actions ⟨true, true, true, false, false, false⟩)
      [.close, .close, .spawn, .spawn] := by
  have h : open_url_actions ⟨true, true, true, false, false, false⟩ =
      [ProcAction.close, ProcAction.spawn] := rfl
  rw [h]
  exact .left (.right (.right (.left .nil)))

/-- Claim C7 as stated is false: the code has no lock serializing the
launch paths (the main loop at piview.py 999 and 1014, the refresh path at
397, 414 and 418, and the health-check thread at 274 all call
restart_browser / open_url on the shared handle), and in the interleaving
where both threads run their close before either reaches the Popen —
realizable since seconds of sleeping separate them — both spawns survive:
two browser processes are live at once. -/
theorem claim_C7_counterexample :
    IsInterleaving
      (open_url_actions ⟨true, true, true, false, false, false⟩)
      (open_url_actions ⟨true, true, true, false, false, false⟩)
      [.close, .close, .spawn, .spawn] ∧
    maxLive 0 [.close, .close, .spawn, .spawn] = 2 ∧
    liveAfter 0 [.close, .close, .spawn, .spawn] = 2 :=
  ⟨interleaving_close_close_spawn_spawn, by decide, by decide⟩

/-- Claim C7 amended: within each single thread, every launch and every
restart closes any existing handle before spawning (open_url closes at its
first step; restart_browser closes and then runs open_url, which closes
again), and under serialized execution of supervisor operations at most
one browser process is live at every intermediate point; but the code has
no lock, and a concurrent interleaving of two launch paths can leave two
browser processes live at once. -/
theorem claim_C7_amended :
    (∀ ops : List SupervisorOp, maxLive 0 (traceOf ops) ≤ 1) ∧
    (∀ env, ∃ rest, open_url_actions env = ProcAction.close :: rest) ∧
    (∀ env, ∃ rest, opActions (SupervisorOp.restart env) =
      ProcAction.close :: ProcAction.close :: rest) ∧
    (∃ tr, IsInterleaving
        (open_url_actions ⟨true, true, true, false, false, false⟩)
        (open_url_actions ⟨true, true, true, false, false, false⟩) tr ∧
      maxLive 0 tr = 2) :=
  ⟨maxLive_traceOf_le_one, fun env => ⟨_, rfl⟩, fun env => ⟨_, rfl⟩,
    ⟨[.close, .close, .spawn, .spawn],
      interleaving_close_close_spawn_spawn, by decide⟩⟩

/-- Updating an association list keeps every key of the base list. -/
theorem keys_dictUpdate (base overlay : List (String × ConfigValue)) (k : String)
    (hk : k ∈ base.map Prod.fst) : k ∈ (dictUpdate base overlay).map Prod.fst := by
  rcases List.mem_map.mp hk with ⟨x, hx, hxk⟩
  apply List.mem_map.mpr
  refine ⟨(x.1, (overlay.lookup x.1).getD x.2), ?_, hxk⟩
  apply List.mem_append_left
  exact List.mem_map.mpr ⟨x, hx, rfl⟩

/-- Claim C9 as stated is false: load_config can raise.  A config file
whose bytes are not decodable text makes json.load raise
UnicodeDecodeError — a ValueError, caught by neither arm of the except at
piview.py 342 — which propagates to the caller: with an existing user
config of undecodable content, load_config errors instead of returning any
dictionary. -/
theorem claim_C9_counterexample :
    load_config true false .undecodable .ioError true =
      .error "UnicodeDecodeError" ∧
    ∀ d, load_config true false .undecodable .ioError true ≠ .ok d := by
  refine ⟨rfl, ?_⟩
  intro d h
  exact Except.noConfusion h

/-- Claim C9 amended: for every config-file state whose chosen file is
absent, unreadable (IOError) or invalid JSON, load_config returns a copy
of the default configuration, and for every successfully parsed file it
returns the defaults merged with the file's keys, so the returned
dictionary always contains every key of DEFAULT_CONFIG; but load_config is
not total — for a file whose bytes json.load cannot decode as text, the
UnicodeDecodeError is caught by neither except arm and propagates.  The
mkdir branch before save_config (piview.py 331) can never raise, since the
selection at piview.py 326 makes its guard unsatisfiable. -/
theorem claim_C9_amended (userExists sysExists : Bool)
    (userContent sysContent : FileContent) (mkdirOk : Bool)
    (hdec : (userExists || sysExists) = true →
      (if userExists then userContent else sysContent) ≠ .undecodable) :
    ∃ d, load_config userExists sysExists userContent sysContent mkdirOk = .ok d ∧
      (∀ k, k ∈ DEFAULT_CONFIG.map Prod.fst → k ∈ d.map Prod.fst) ∧
      ((userExists || sysExists) = false → d = DEFAULT_CONFIG) ∧
      ((userExists || sysExists) = true →
        readAndMerge (if userExists then userContent else sysContent) = .ok d) ∧
      readAndMerge .ioError = .ok DEFAULT_CONFIG ∧
      readAndMerge .badJson = .ok DEFAULT_CONFIG ∧
      readAndMerge .undecodable = .error "UnicodeDecodeError" ∧
      (∀ d0, readAndMerge (.jsonDict d0) = .ok (dictUpdate DEFAULT_CONFIG d0)) := by
  cases userExists with
  | false =>
    cases sysExists with
    | false =>
      exact ⟨DEFAULT_CONFIG, rfl, fun k h => h, fun _ => rfl, by simp,
        rfl, rfl, rfl, fun d0 => rfl⟩
    | true =>
      cases sysContent with
      | ioError =>
        exact ⟨DEFAULT_CONFIG, rfl, fun k h => h, by simp, fun _ => rfl,
          rfl, rfl, rfl, fun d0 => rfl⟩
      | badJson =>
        exact ⟨DEFAULT_CONFIG, rfl, fun k h => h, by simp, fun _ => rfl,
          rfl, rfl, rfl, fun d0 => rfl⟩
      | undecodable =>
        exact absurd rfl (hdec (by simp))
      | jsonDict d0 =>
        exact ⟨dictUpdate DEFAULT_CONFIG d0, rfl,
          fun k hk => keys_dictUpdate DEFAULT_CONFIG d0 k hk, by simp,
          fun _ => rfl, rfl, rfl, rfl, fun d1 => rfl⟩
  | true =>
    cases userContent with
    | ioError =>
      exact ⟨DEFAULT_CONFIG, rfl, fun k h => h, by simp, fun _ => rfl,
        rfl, rfl, rfl, fun d0 => rfl⟩
    | badJson =>
      exact ⟨DEFAULT_CONFIG, rfl, fun k h => h, by simp, fun _ => rfl,
        rfl, rfl, rfl, fun d0 => rfl⟩
    | undecodable =>
      exact absurd rfl (hdec (by simp))
    | jsonDict d0 =>
      exact ⟨dictUpdate DEFAULT_CONFIG d0, rfl,
        fun k hk => keys_dictUpdate DEFAULT_CONFIG d0 k hk, by simp,
        fun _ => rfl, rfl, rfl, rfl, fun d1 => rfl⟩

/-- Witness for the amended claim C9 with an existing user config
overriding the url key, an unreadable system config, and a failing
mkdir. -/
theorem claim_C9_amended_witness :
    ((true || false) = true →
      (if true then
          (FileContent.jsonDict [("url", ConfigValue.str "https://factory.local")])
        else FileContent.ioError) ≠ .undecodable) ∧
    (∃ d, load_config true false
        (.jsonDict [("url", .str "https://factory.local")]) .ioError false = .ok d ∧
      (∀ k, k ∈ DEFAULT_CONFIG.map Prod.fst → k ∈ d.map Prod.fst) ∧
      ((true || false) = false → d = DEFAULT_CONFIG) ∧
      ((true || false) = true →
        readAndMerge (if true then
          (.jsonDict [("url", .str "https://factory.local")]) else .ioError) = .ok d) ∧
      readAndMerge .ioError = .ok DEFAULT_CONFIG ∧
      readAndMerge .badJson = .ok DEFAULT_CONFIG ∧
      readAndMerge .undecodable = .error "UnicodeDecodeError" ∧
      (∀ d0, readAndMerge (.jsonDict d0) = .ok (dictUpdate DEFAULT_CONFIG d0))) :=
  ⟨by decide, claim_C9_amended true false
    (.jsonDict [("url", .str "https://factory.local")]) .ioError false (by decide)⟩

/-- From any start state whose Monitoring streak is below the threshold,
the watchdog only reaches Monitoring states with streak below the
threshold, for a positive threshold. -/
theorem watchdog_streak_lt (n : Nat) (hn : 0 < n) (es : List WatchdogEvent) :
    ∀ s : WatchdogState, (∀ j, s = .monitoring j → j < n) →
      ∀ k, watchdogRun n s es = .monitoring k → k < n := by
  induction es with
  | nil =>
    intro s hs k hk
    exact hs k (by simpa [watchdogRun] using hk)
  | cons e rest ih =>
    intro s hs k hk
    rw [watchdogRun] at hk
    refine ih (watchdogStep n s e) ?_ k hk
    intro j hj
    cases s with
    | idle =>
      cases e with
      | probeOk => simp [watchdogStep] at hj
      | probeFail => simp [watchdogStep] at hj
      | relaunch =>
        simp [watchdogStep] at hj
        omega
    | monitoring m =>
      have hm : m < n := hs m rfl
      cases e with
      | probeOk =>
        simp [watchdogStep] at hj
        omega
      | probeFail =>
        simp only [watchdogStep] at hj
        by_cases hge : m + 1 ≥ n
        · rw [if_pos hge] at hj
          exact absurd hj (by simp)
        · rw [if_neg hge] at hj
          have : m + 1 = j := by simpa using hj
          omega
      | relaunch =>
        simp [watchdogStep] at hj
        omega
    | killed =>
      cases e with
      | probeOk => simp [watchdogStep] at hj
      | probeFail => simp [watchdogStep] at hj
      | relaunch =>
        simp [watchdogStep] at hj
        omega

/-- Claim C3 (the watchdog is absent from src/ and is modelled from the
spec): with a positive check interval and a positive freeze threshold, the
threshold-to-checks conversion is exactly the ceiling of
freeze_threshold / check_interval (characterized by
freeze ≤ check * N < freeze + check), and from any reachable Monitoring
state a failed probe transitions the watchdog to Killed exactly when the
consecutive-unresponsive count reaches N, and never at any smaller
count. -/
theorem claim_C3_watchdog_kill_exact (freezeThreshold checkInterval : Nat)
    (hc : 0 < checkInterval) (hf : 0 < freezeThreshold) :
    (freezeThreshold ≤
        checkInterval * checksToKill freezeThreshold checkInterval ∧
      checkInterval * checksToKill freezeThreshold checkInterval <
        freezeThreshold + checkInterval) ∧
    (∀ (es : List WatchdogEvent) (k : Nat),
      watchdogRun (checksToKill freezeThreshold checkInterval) .idle es =
          .monitoring k →
        (watchdogStep (checksToKill freezeThreshold checkInterval)
            (.monitoring k) .probeFail = .killed ↔
          k + 1 = checksToKill freezeThreshold checkInterval)) ∧
    (∀ k, k + 1 < checksToKill freezeThreshold checkInterval →
      watchdogStep (checksToKill freezeThreshold checkInterval)
        (.monitoring k) .probeFail = .monitoring (k + 1)) := by
  have hceil : freezeThreshold ≤
      checkInterval * checksToKill freezeThreshold checkInterval ∧
      checkInterval * checksToKill freezeThreshold checkInterval <
        freezeThreshold + checkInterval := by
    have hdm :=
      Nat.div_add_mod (freezeThreshold + checkInterval - 1) checkInterval
    have hmod :
        (freezeThreshold + checkInterval - 1) % checkInterval < checkInterval :=
      Nat.mod_lt _ hc
    unfold checksToKill
    set m := checkInterval *
      ((freezeThreshold + checkInterval - 1) / checkInterval) with hm
    set r := (freezeThreshold + checkInterval - 1) % checkInterval with hr
    omega
  have hn : 0 < checksToKill freezeThreshold checkInterval := by
    rcases Nat.eq_zero_or_pos (checksToKill freezeThreshold checkInterval)
      with h0 | hpos
    · have h1 := hceil.1
      rw [h0, Nat.mul_zero] at h1
      omega
    · exact hpos
  refine ⟨hceil, ?_, ?_⟩
  · intro es k hk
    have hlt : k < checksToKill freezeThreshold checkInterval := by
      refine watchdog_streak_lt _ hn es .idle ?_ k hk
      intro j hj
      simp at hj
    constructor
    · intro hkill
      simp only [watchdogStep] at hkill
      by_cases hge : k + 1 ≥ checksToKill freezeThreshold checkInterval
      · omega
      · rw [if_neg hge] at hkill
        exact absurd hkill (by simp)
    · intro he
      simp only [watchdogStep]
      rw [if_pos (by omega)]
  · intro k hk1
    simp only [watchdogStep]
    rw [if_neg (by omega)]

/-- Witness for claim C3 at the spec's scenario: freeze threshold 120 s and
check interval 30 s, for which the kill threshold is 4 consecutive failed
checks. -/
theorem claim_C3_witness :
    0 < 30 ∧ 0 < 120 ∧ checksToKill 120 30 = 4 ∧
    ((120 ≤ 30 * checksToKill 120 30 ∧
        30 * checksToKill 120 30 < 120 + 30) ∧
      (∀ (es : List WatchdogEvent) (k : Nat),
        watchdogRun (checksToKill 120 30) .idle es = .monitoring k →
          (watchdogStep (checksToKill 120 30) (.monitoring k) .probeFail =
              .killed ↔
            k + 1 = checksToKill 120 30)) ∧
      (∀ k, k + 1 < checksToKill 120 30 →
        watchdogStep (checksToKill 120 30) (.monitoring k) .probeFail =
          .monitoring (k + 1))) :=
  ⟨by decide, by decide, by decide,
    claim_C3_watchdog_kill_exact 120 30 (by decide) (by decide)⟩
